import Mathlib

/-
Verification of the DCnRG_V2 display-inspection report generator.

The Python sources are shallowly embedded in Lean: machine floats become
exact rationals (ℚ), Python `None` becomes `Option`, and JSON/YAML scalar
values become an explicit value type.  Pure functions are translated
definition-by-definition from the source files named in each doc comment.
Third-party library calls (the Shapely polygon intersection) are modelled
as explicit oracle parameters, and I/O effects (remote uploads) as oracles
plus an explicit trace of attempted operations.  Components of the final
revision that are referenced by the repository's tests and callers but
whose implementation is absent from the snapshot are modelled from the
specification, and each such definition says so in its doc comment.
-/

namespace DCnRG

/-- Executable absolute value on ℚ (`numpy.abs` in the source); stated as a
conditional so that concrete instances evaluate.  `ratAbs_eq_abs` below shows
it agrees with Mathlib's `|·|`. -/
def ratAbs (q : ℚ) : ℚ := if q < 0 then -q else q

/-- Scalar value as seen by the report code after JSON/YAML loading: either a
number (Python `int`/`float`; Python `bool` is an `int` subclass and would
also land here) or some non-numeric value (string, list, dict, ...). -/
inductive PyVal where
  | num (q : ℚ)
  | nonnum
  deriving DecidableEq, Repr

/-- Embeds `area` from `src/src/calculate.py`: half the absolute value of the
2-D cross product of `p1 - p0` and `p2 - p0`. -/
def area (p0 p1 p2 : ℚ × ℚ) : ℚ :=
  (1 / 2) * ratAbs ((p1.1 - p0.1) * (p2.2 - p0.2) - (p1.2 - p0.2) * (p2.1 - p0.1))

/-- Result of `calculate_overlap_percentage`: either the Python error string
or a number, mirroring the source's union return type. -/
inductive OverlapResult where
  | err (msg : String)
  | val (q : ℚ)
  deriving DecidableEq, Repr

/-- The exact sentinel string returned by `calculate_overlap_percentage` in
`src/src/calculate.py` for degenerate input triangles. -/
def overlapErrorMsg : String := "Error: the input data does not form valid triangles."

/-- Embeds `calculate_overlap_percentage` from `src/src/calculate.py`.  The
Shapely polygon-intersection call is an external library excluded from the
specification's scope; it is modelled by the oracle argument `intersection`
(`none` when `intersection.is_empty` holds, `some a` for intersection area
`a`), exactly as the source reads it:
`intersection.area if not intersection.is_empty else 0.0`. -/
def calculate_overlap_percentage (x1 y1 x2 y2 x3 y3 x4 y4 x5 y5 x6 y6 : ℚ)
    (intersection : Option ℚ) : OverlapResult :=
  let triangle1_area := area (x1, y1) (x2, y2) (x3, y3)
  let triangle2_area := area (x4, y4) (x5, y5) (x6, y6)
  if triangle1_area = 0 ∨ triangle2_area = 0 then
    .err overlapErrorMsg
  else
    let intersection_area := intersection.getD 0
    .val (intersection_area / triangle1_area * 100)

/-- Return value of `brightness` in `src/src/calculate.py`; the input record
of `brightness_uniformity`. -/
structure BrightnessValue where
  min : Option ℚ
  typ : Option ℚ
  max : Option ℚ
  uniformity_center_lv : Option ℚ
  deriving DecidableEq

/-- Embeds `brightness_uniformity` from `src/src/calculate.py` exactly as the
snapshot has it: it reads `min` and `uniformity_center_lv` (NOT `max`) and
returns `(min / uniformity_center_lv) * 100`, with `0.0` when either is
absent or the center value is zero. -/
def brightness_uniformity (brightness_value : BrightnessValue) : ℚ :=
  match brightness_value.min, brightness_value.uniformity_center_lv with
  | some min_lv, some center_lv =>
      if center_lv = 0 then 0 else min_lv / center_lv * 100
  | _, _ => 0

/-- Embeds `cg_by_area` from `src/src/calculate.py`, taking the flat
coordinate list produced by `parse.coordinates_of_triangle` directly (the
repository's own tests exercise the function this way, mocking the parser).
The snapshot divides by the hardcoded constants `0.112` and `0.158` and its
selector dictionary has entries only for "sRGB, NTSC", "sRGB" and "NTSC";
every other selector falls to the `(None, None)` default.  The early returns
(`len != 6`, zero area) return the bare `None`, i.e. `none` here. -/
def cg_by_area (coordinate : List ℚ) (color_space : String) :
    Option (Option ℚ × Option ℚ) :=
  match coordinate with
  | [x1, y1, x2, y2, x3, y3] =>
    let triangle_area := area (x1, y1) (x2, y2) (x3, y3)
    if triangle_area = 0 then none
    else
      let color_gamut_srgb := triangle_area / (112 / 1000) * 100
      let color_gamut_ntsc := triangle_area / (158 / 1000) * 100
      if color_space = "sRGB, NTSC" then some (some color_gamut_srgb, some color_gamut_ntsc)
      else if color_space = "sRGB" then some (some color_gamut_srgb, none)
      else if color_space = "NTSC" then some (none, some color_gamut_ntsc)
      else some (none, none)
  | _ => none

/-- Verdict statuses assigned by `generate_comparison_report` in
`src/src/report.py`. -/
inductive Status where
  | pass
  | fail
  | na
  | error
  deriving DecidableEq, Repr

/-- Which branch of `generate_comparison_report` produced the verdict; stands
in for the formatted `reason` string of the source (the numeric interpolation
of Python f-strings is not modelled, the selected rule is). -/
inductive Reason where
  | avgMissing
  | minMissing
  | typMissing
  | expMinMissing
  | nonNumericData
  | avgBelowTyp
  | minBelowExpMin
  | tempMaxAboveExpMax
  | avgAtLeastTyp
  | tempLogicError
  | logicError
  deriving DecidableEq, Repr

/-- The aggregated stat block for one metric as read by the comparison code:
the values of `actual_data_dict_for_test.get("avg"/"min"/"max")`. -/
structure ActualStats where
  avg : Option PyVal
  min : Option PyVal
  max : Option PyVal
  deriving DecidableEq

/-- The expected block for one metric as read from the YAML:
`expected_values_dict.get("typ"/"min"/"max")`. -/
structure ExpectedSpec where
  typ : Option PyVal
  min : Option PyVal
  max : Option PyVal
  deriving DecidableEq

/-- Embeds the non-coordinate branch of `generate_comparison_report` from
`src/src/report.py` (the `else` branch starting at line 506): the N/A guards
for missing and non-numeric data, then in order the `avg < typ` FAIL rule,
the `min < expected.min` FAIL rule, the Temperature-only `max > expected.max`
FAIL rule, the `avg >= typ` PASS rule, and the two ERROR fallthroughs. -/
def nonCoordinateStatus (yamlKey : String) (actual : ActualStats)
    (expected : ExpectedSpec) : Status × Reason :=
  match actual.avg with
  | none => (.na, .avgMissing)
  | some actual_avg =>
  match actual.min with
  | none => (.na, .minMissing)
  | some actual_min_val =>
  match expected.typ with
  | none => (.na, .typMissing)
  | some expected_typ =>
  match expected.min with
  | none => (.na, .expMinMissing)
  | some expected_min_thresh =>
  match actual_avg, actual_min_val, expected_typ, expected_min_thresh with
  | .num avg, .num amin, .num typ, .num emin =>
    if avg < typ then (.fail, .avgBelowTyp)
    else if amin < emin then (.fail, .minBelowExpMin)
    else if yamlKey = "Temperature" then
      let temp_max_fail : Bool :=
        match actual.max, expected.max with
        | some (.num amax), some (.num emax) => decide (emax < amax)
        | _, _ => false
      if temp_max_fail then (.fail, .tempMaxAboveExpMax)
      else if typ ≤ avg then (.pass, .avgAtLeastTyp)
      else (.error, .tempLogicError)
    else if typ ≤ avg then (.pass, .avgAtLeastTyp)
    else (.error, .logicError)
  | _, _, _, _ => (.na, .nonNumericData)

/-- The `tolerance_applied` record that the final-revision Comparison Engine
attaches to a report entry when the TV Contrast tolerance fires. -/
structure ToleranceApplied where
  percent : ℚ
  original_typ : ℚ
  adjusted_typ : ℚ
  deriving DecidableEq, Repr

/-- Modelled from the spec: the general (non-coordinate) path of the
FINAL-revision Comparison Engine (spec §4.6), whose implementation is absent
from the snapshot (`src/src/report.py` holds an earlier revision without the
`is_tv_flag` parameter; `src/src/tests/test_report.py` and `main.py` call the
final revision).  Per the spec: the four N/A guards; then, if the metric is
`Contrast` and `is_tv_flag` is true, `expected.typ -= expected.typ * 0.065`
and `tolerance_applied percent=6.5, original_typ, adjusted_typ` is recorded;
`FAIL` if `avg < typ` (using the possibly-adjusted typ; this avg/typ rule is
NOT evaluated for Temperature); `FAIL` if `min < expected.min`; for
Temperature additionally `FAIL` if `max > expected.max`; otherwise `PASS`. -/
def finalNonCoordinateStatus (is_tv_flag : Bool) (yamlKey : String)
    (actual : ActualStats) (expected : ExpectedSpec) :
    Status × Option ToleranceApplied :=
  match actual.avg, actual.min, expected.typ, expected.min with
  | some (.num avg), some (.num amin), some (.num typ0), some (.num emin) =>
    let adjusted : ℚ × Option ToleranceApplied :=
      if yamlKey = "Contrast" ∧ is_tv_flag then
        let adjusted_typ := typ0 - typ0 * (65 / 1000)
        (adjusted_typ, some ⟨13 / 2, typ0, adjusted_typ⟩)
      else (typ0, none)
    let typ := adjusted.1
    let tol := adjusted.2
    let temp_max_fail : Bool :=
      match actual.max, expected.max with
      | some (.num amax), some (.num emax) => decide (emax < amax)
      | _, _ => false
    if yamlKey ≠ "Temperature" ∧ avg < typ then (.fail, tol)
    else if amin < emin then (.fail, tol)
    else if yamlKey = "Temperature" ∧ temp_max_fail = true then (.fail, tol)
    else (.pass, tol)
  | _, _, _, _ => (.na, none)

/-- Modelled from the spec: the per-metric decimal-places table of the
FINAL-revision Aggregation Engine (spec §4.5 step 5), keyed by the key path's
last segment, absent from the snapshot (`calculate_full_report` in
`src/src/report.py` is an earlier revision that emits unrounded values). -/
def metricDecimals (lastSeg : String) : ℕ :=
  if lastSeg = "Brightness" ∨ lastSeg = "Contrast" ∨ lastSeg = "Temperature" then 0
  else if lastSeg = "BrightnessUniformity" ∨ lastSeg = "CgByAreaRGB"
      ∨ lastSeg = "CgByAreaNTSC" ∨ lastSeg = "CgRGB" ∨ lastSeg = "CgNTSC"
      ∨ lastSeg = "DeltaE" then 1
  else if lastSeg = "Red_x" ∨ lastSeg = "Red_y" ∨ lastSeg = "Green_x"
      ∨ lastSeg = "Green_y" ∨ lastSeg = "Blue_x" ∨ lastSeg = "Blue_y"
      ∨ lastSeg = "White_x" ∨ lastSeg = "White_y" ∨ lastSeg = "Center_x"
      ∨ lastSeg = "Center_y" then 3
  else 2

/-- Python's `round` on a rational, to the nearest integer with ties going to
the even integer (banker's rounding), as used by the final-revision
Aggregation Engine's rounding step. -/
def pyRoundInt (q : ℚ) : ℤ :=
  let f := ⌊q⌋
  let r := q - f
  if r < 1 / 2 then f
  else if 1 / 2 < r then f + 1
  else if f % 2 = 0 then f else f + 1

/-- Python's `round(q, ndigits)`: scale, round half-to-even, unscale. -/
def pyRound (q : ℚ) (ndigits : ℕ) : ℚ :=
  (pyRoundInt (q * 10 ^ ndigits) : ℚ) / 10 ^ ndigits

/-- One `avg`/`min`/`max` slot of an aggregated stat package: a scalar
(possibly the absent marker) or a positionally-aligned list for array-valued
metrics. -/
inductive StatEntry where
  | scalar (v : Option ℚ)
  | array (l : List (Option ℚ))
  deriving DecidableEq

/-- An aggregated `avg`/`min`/`max` stat package for one key path. -/
structure StatPackage where
  avg : StatEntry
  min : StatEntry
  max : StatEntry
  deriving DecidableEq

/-- Modelled from the spec: rounding of one stat slot to `nd` decimal places;
numeric values (scalar or per element) are rounded, the absent marker passes
through unrounded. -/
def roundEntry (nd : ℕ) : StatEntry → StatEntry
  | .scalar v => .scalar (v.map (fun q => pyRound q nd))
  | .array l => .array (l.map (Option.map (fun q => pyRound q nd)))

/-- Helper for `lastSegment`: the characters after the last `.`. -/
def lastSegmentAux : List Char → List Char → List Char
  | [], acc => acc.reverse
  | c :: cs, acc => if c = '.' then lastSegmentAux cs [] else lastSegmentAux cs (c :: acc)

/-- Last segment of a dotted key path, e.g. `"Coordinates.Red_x"` to
`"Red_x"` (the key under which the per-metric decimals constant is looked
up). -/
def lastSegment (path : String) : String := ⟨lastSegmentAux path.data []⟩

/-- Modelled from the spec: the final-revision Aggregation Engine's rounding
step applied to one key path's stat package — every `avg`/`min`/`max` value,
scalar or per element, rounded to the per-metric decimals constant keyed by
the path's last segment. -/
def roundStatPackage (path : String) (pkg : StatPackage) : StatPackage :=
  let nd := metricDecimals (lastSegment path)
  ⟨roundEntry nd pkg.avg, roundEntry nd pkg.min, roundEntry nd pkg.max⟩

/-- One entry of the `Measurements` list as consumed by
`find_closest_to_target` in `src/src/parse.py` (the fields it converts with
`float(...)` are modelled as already numeric). -/
structure MeasurementPoint where
  location : String
  x : ℚ
  y : ℚ
  lv : ℚ
  deriving DecidableEq

/-- The record returned by `find_closest_to_target`. -/
structure ClosestResult where
  location : Option String
  x : Option ℚ
  y : Option ℚ
  lv : Option ℚ
  deriving DecidableEq, Repr

/-- Embeds `find_closest_to_target` from `src/src/parse.py`: a linear scan
tracking the strictly closest point so far, starting from distance infinity
and an all-`None` result.  Distances are compared squared (the source takes
`math.sqrt` of both sides; `sqrt` is strictly monotone on nonnegatives, so
the strict `<` comparison is unchanged); `none` as the best-so-far distance
plays `float("inf")`. -/
def find_closest_to_target (measurements : List MeasurementPoint)
    (target_x target_y : ℚ) : ClosestResult :=
  (measurements.foldl
    (fun st m =>
      let distance := (m.x - target_x) ^ 2 + (m.y - target_y) ^ 2
      let closer :=
        match st.1 with
        | none => true
        | some best => distance < best
      if closer then (some distance, ⟨some m.location, some m.x, some m.y, some m.lv⟩)
      else st)
    ((none : Option ℚ), (⟨none, none, none, none⟩ : ClosestResult))).2

/-- Embeds `get_day_suffix` from `src/src/helpers.py`. -/
def get_day_suffix (day : ℕ) : String :=
  if 11 ≤ day ∧ day ≤ 13 then "th"
  else if day % 10 = 1 then "st"
  else if day % 10 = 2 then "nd"
  else if day % 10 = 3 then "rd"
  else "th"

/-- The ordinal-suffix rule in the words of the specification: "th" for days
11–13, otherwise "st"/"nd"/"rd"/"th" by the day's last digit.  Written from
the spec sentence (not the source) to compare against `get_day_suffix`. -/
def specOrdinalSuffix (day : ℕ) : String :=
  if 11 ≤ day ∧ day ≤ 13 then "th"
  else
    match day % 10 with
    | 1 => "st"
    | 2 => "nd"
    | 3 => "rd"
    | _ => "th"

/-- A calendar date as produced by `datetime.strptime(...).date()`. -/
structure PyDate where
  year : ℕ
  month : ℕ
  day : ℕ
  deriving DecidableEq, Repr

/-- Gregorian leap-year rule used by Python's `datetime` validation. -/
def isLeapYear (y : ℕ) : Bool :=
  y % 4 = 0 && (y % 100 != 0 || y % 400 = 0)

/-- Number of days in a month, as validated by `datetime.strptime`. -/
def daysInMonth (y m : ℕ) : ℕ :=
  if m = 2 then (if isLeapYear y then 29 else 28)
  else if m = 4 ∨ m = 6 ∨ m = 9 ∨ m = 11 then 30
  else 31

/-- Numeric value of a decimal digit character, `none` otherwise. -/
def charDigit (c : Char) : Option ℕ :=
  if c.isDigit then some (c.toNat - 48) else none

/-- Reads a block of decimal digit characters as a number. -/
def digitsToNat (cs : List Char) : Option ℕ :=
  cs.foldl
    (fun acc c =>
      match acc, charDigit c with
      | some n, some d => some (n * 10 + d)
      | _, _ => none)
    (some 0)

/-- Embeds `datetime.datetime.strptime(date_str, "%Y%m%d%H%M%S").date()` as
used by `get_inspection_date_range` in `src/src/helpers.py`: a 14-digit
string split 4-2-2-2-2-2, with `datetime`'s range validation (year ≥ 1,
month 1–12, day within the month incl. leap years, hour ≤ 23, minute ≤ 59,
second ≤ 59); any violation raises `ValueError` in Python, i.e. `none`
here. -/
def strptimeDate (s : String) : Option PyDate :=
  let cs := s.data
  if cs.length = 14 ∧ cs.all Char.isDigit then
    match digitsToNat (cs.take 4), digitsToNat ((cs.drop 4).take 2),
        digitsToNat ((cs.drop 6).take 2), digitsToNat ((cs.drop 8).take 2),
        digitsToNat ((cs.drop 10).take 2), digitsToNat ((cs.drop 12).take 2) with
    | some y, some mo, some d, some h, some mi, some sec =>
      if 1 ≤ y ∧ 1 ≤ mo ∧ mo ≤ 12 ∧ 1 ≤ d ∧ d ≤ daysInMonth y mo
          ∧ h ≤ 23 ∧ mi ≤ 59 ∧ sec ≤ 59 then
        some ⟨y, mo, d⟩
      else none
    | _, _, _, _, _, _ => none
  else none

/-- Digit character for a single decimal digit. -/
def digitChar : ℕ → Char
  | 0 => '0'
  | 1 => '1'
  | 2 => '2'
  | 3 => '3'
  | 4 => '4'
  | 5 => '5'
  | 6 => '6'
  | 7 => '7'
  | 8 => '8'
  | 9 => '9'
  | _ => '?'

/-- Fueled decimal rendering of a natural number (fuel ≥ 1 suffices for the
digit count; recursion on fuel keeps it structurally reducible). -/
def natDigits : ℕ → ℕ → List Char
  | 0, _ => []
  | fuel + 1, n =>
    if n < 10 then [digitChar n]
    else natDigits fuel (n / 10) ++ [digitChar (n % 10)]

/-- Decimal rendering of a natural number (Python's str/f-string of an
`int`). -/
def natToStr (n : ℕ) : String := ⟨natDigits (n + 1) n⟩

/-- Full English month name, Python `strftime`'s `%B` (month is 1–12 after
`strptime` validation). -/
def monthName (m : ℕ) : String :=
  ["January", "February", "March", "April", "May", "June", "July",
   "August", "September", "October", "November", "December"].getD (m - 1) ""

/-- Chronological order key of a date (Python compares `date` objects
chronologically, i.e. lexicographically on year, month, day). -/
def dateKey (d : PyDate) : ℕ := d.year * 10000 + d.month * 100 + d.day

/-- `min(dates)` over a nonempty collection of dates. -/
def minDate (d : PyDate) (ds : List PyDate) : PyDate :=
  ds.foldl (fun a b => if dateKey b < dateKey a then b else a) d

/-- `max(dates)` over a nonempty collection of dates. -/
def maxDate (d : PyDate) (ds : List PyDate) : PyDate :=
  ds.foldl (fun a b => if dateKey a < dateKey b then b else a) d

/-- The inner `format_date` helper of `get_inspection_date_range`:
`f"{day}{suffix} %B %Y"`. -/
def format_date (dt : PyDate) : String :=
  natToStr dt.day ++ get_day_suffix dt.day ++ " " ++ monthName dt.month
    ++ " " ++ natToStr dt.year

/-- Embeds `get_inspection_date_range` from `src/src/helpers.py`.  The input
is the list of each device report's `measurement_date` field (`none` when the
key is absent, matching `report.get("measurement_date")`); an empty list is
the empty input dict.  Entries that are `None`, empty, the string "N/A", or
fail `strptime` validation are skipped.  The source collects dates into a
set; since only `min`/`max` of the collection are consumed, duplicates are
harmless and the list is used directly. -/
def get_inspection_date_range (all_device_reports_data : List (Option String)) : String :=
  match all_device_reports_data with
  | [] => "N/A"
  | _ =>
    let dates := all_device_reports_data.filterMap
      (fun date_str =>
        match date_str with
        | none => none
        | some s => if s = "" ∨ s = "N/A" then none else strptimeDate s)
    match dates with
    | [] => "N/A"
    | d :: ds =>
      let min_date := minDate d ds
      let max_date := maxDate d ds
      if min_date = max_date then format_date min_date
      else if min_date.month = max_date.month ∧ min_date.year = max_date.year then
        natToStr min_date.day ++ get_day_suffix min_date.day ++ " - "
          ++ natToStr max_date.day ++ get_day_suffix max_date.day
          ++ " " ++ monthName min_date.month ++ " " ++ natToStr min_date.year
      else format_date min_date ++ " - " ++ format_date max_date

/-- Upload mode of the Manifest & Upload Tool (`create_manifest.py`). -/
inductive UploadMode where
  | zip
  | files
  deriving DecidableEq, Repr

/-- Embeds `upload_to_nextcloud` from `create_manifest.py`.  The remote
server is modelled by the oracle `uploadOk` (the success/failure of
`upload_file` on a remote path); the returned list is the trace of remote
paths in the order upload attempts are made.  The manifest goes first,
sequentially, to `/SCT/Updater/versions/product_id/manifest-filename`; on
its failure the function returns `False` at once.  Then application files go
under `/SCT/Updater/modules/product_id/version/`: in `zip` mode only the
first file (failure of the empty list case returns `False`), in `files` mode
all of them (the thread pool submits them in list order; overall success iff
`failed_uploads` stays empty, i.e. every upload succeeded). -/
def upload_to_nextcloud (uploadOk : String → Bool) (manifest_name : String)
    (files_to_upload : List String) (product_id version : String)
    (mode : UploadMode) : Bool × List String :=
  let remote_manifest_path := "/SCT/Updater/versions/" ++ product_id ++ "/" ++ manifest_name
  if uploadOk remote_manifest_path then
    let remote_modules_base := "/SCT/Updater/modules/" ++ product_id ++ "/" ++ version
    match mode with
    | .zip =>
      match files_to_upload with
      | [] => (false, [remote_manifest_path])
      | f :: _ =>
        let remote_path := remote_modules_base ++ "/" ++ f
        (uploadOk remote_path, [remote_manifest_path, remote_path])
    | .files =>
      match files_to_upload with
      | [] => (true, [remote_manifest_path])
      | fs =>
        let remote_paths := fs.map (fun f => remote_modules_base ++ "/" ++ f)
        (remote_paths.all uploadOk, remote_manifest_path :: remote_paths)
  else
    (false, [remote_manifest_path])

/-- Sanity check that the executable `ratAbs` is Mathlib's absolute value. -/
theorem ratAbs_eq_abs (q : ℚ) : ratAbs q = |q| := by
  unfold ratAbs
  rcases lt_or_ge q 0 with h | h
  · rw [if_pos h, abs_of_neg h]
  · rw [if_neg (not_lt.mpr h), abs_of_nonneg h]

/-- C10: for a device report whose `Measurements` list is empty,
`find_closest_to_target` returns the all-absent record
`Location = x = y = Lv = None` (the loop body never runs, so no field access
or float conversion can raise). -/
theorem find_closest_empty_measurements (target_x target_y : ℚ) :
    find_closest_to_target [] target_x target_y = ⟨none, none, none, none⟩ := rfl

/-- C6: `calculate_overlap_percentage` returns the error string stating
"the input data does not form valid triangles" (a string, never a number)
exactly when at least one input triangle has zero area; for two
non-degenerate triangles it returns `(intersection_area / triangle1_area) *
100`, and the intersection area is `0` when the polygons do not intersect
(empty intersection oracle). -/
theorem overlap_percentage_sentinel (x1 y1 x2 y2 x3 y3 x4 y4 x5 y5 x6 y6 : ℚ)
    (intersection : Option ℚ) :
    (calculate_overlap_percentage x1 y1 x2 y2 x3 y3 x4 y4 x5 y5 x6 y6 intersection
        = .err overlapErrorMsg
      ↔ (area (x1, y1) (x2, y2) (x3, y3) = 0 ∨ area (x4, y4) (x5, y5) (x6, y6) = 0))
    ∧ (area (x1, y1) (x2, y2) (x3, y3) ≠ 0 → area (x4, y4) (x5, y5) (x6, y6) ≠ 0 →
        calculate_overlap_percentage x1 y1 x2 y2 x3 y3 x4 y4 x5 y5 x6 y6 intersection
          = .val (intersection.getD 0 / area (x1, y1) (x2, y2) (x3, y3) * 100))
    ∧ (intersection = none →
        area (x1, y1) (x2, y2) (x3, y3) ≠ 0 → area (x4, y4) (x5, y5) (x6, y6) ≠ 0 →
        calculate_overlap_percentage x1 y1 x2 y2 x3 y3 x4 y4 x5 y5 x6 y6 intersection
          = .val 0) := by
  by_cases h : area (x1, y1) (x2, y2) (x3, y3) = 0 ∨ area (x4, y4) (x5, y5) (x6, y6) = 0
  · refine ⟨by simp [calculate_overlap_percentage, h], ?_, ?_⟩
    · intro h1 h2
      exact absurd h (by tauto)
    · intro _ h1 h2
      exact absurd h (by tauto)
  · refine ⟨by simp [calculate_overlap_percentage, h], ?_, ?_⟩
    · intro _ _
      simp [calculate_overlap_percentage, h]
    · intro hi _ _
      simp [calculate_overlap_percentage, h, hi]

/-- Witness for `overlap_percentage_sentinel` at the unit right triangle and
an intersection area of 20. -/
theorem overlap_percentage_sentinel_witness :
    area ((0 : ℚ), 0) (1, 0) (0, 1) ≠ 0 ∧
    calculate_overlap_percentage 0 0 1 0 0 1 0 0 1 0 0 1 (some 20)
      = .val ((some (20 : ℚ)).getD 0 / area ((0 : ℚ), 0) (1, 0) (0, 1) * 100) :=
  ⟨by norm_num [area, ratAbs],
   (overlap_percentage_sentinel 0 0 1 0 0 1 0 0 1 0 0 1 (some 20)).2.1
     (by norm_num [area, ratAbs]) (by norm_num [area, ratAbs])⟩

/-- C1 (code evaluation at the failing input): on the snapshot's
`generate_comparison_report`, a Temperature entry with actual
`avg 6300, min 6250, max 6350` against expected
`min 6200, typ 6500, max 6400` is assigned FAIL by the general
`avg < typ` rule — the avg/typ rule IS evaluated for Temperature, before the
Temperature-specific max check, contradicting the claim (and the repository's
own test `test_generate_comparison_report_temperature_ignores_typ`, which
requires PASS on exactly this data). -/
theorem temperature_avg_typ_rule_fires :
    nonCoordinateStatus "Temperature"
      ⟨some (.num 6300), some (.num 6250), some (.num 6350)⟩
      ⟨some (.num 6500), some (.num 6200), some (.num 6400)⟩
      = (.fail, .avgBelowTyp) := by decide

/-- C7: whenever the values the non-coordinate branch consults are all
numeric — actual `avg` and `min`, expected `typ` and `min`, and for the
Temperature key also actual `max` and expected `max` — the verdict is PASS or
FAIL (in particular never ERROR: both ERROR fallthroughs of the source
require `avg < typ` and `avg ≥ typ` to fail simultaneously, impossible in a
linear order). -/
theorem comparison_no_error_status (yamlKey : String) (avg amin typ emin : ℚ)
    (amax emax : Option PyVal)
    (hmax : yamlKey = "Temperature" →
      (∃ q : ℚ, amax = some (.num q)) ∧ (∃ q : ℚ, emax = some (.num q))) :
    (nonCoordinateStatus yamlKey
        ⟨some (.num avg), some (.num amin), amax⟩
        ⟨some (.num typ), some (.num emin), emax⟩).1 = .pass
    ∨ (nonCoordinateStatus yamlKey
        ⟨some (.num avg), some (.num amin), amax⟩
        ⟨some (.num typ), some (.num emin), emax⟩).1 = .fail := by
  by_cases h1 : avg < typ
  · right
    simp [nonCoordinateStatus, h1]
  · by_cases h2 : amin < emin
    · right
      simp [nonCoordinateStatus, h1, h2]
    · by_cases hk : yamlKey = "Temperature"
      · obtain ⟨⟨qa, ha⟩, qe, he⟩ := hmax hk
        subst ha he hk
        by_cases h3 : qe < qa
        · right
          simp [nonCoordinateStatus, h1, h2, h3]
        · left
          simp [nonCoordinateStatus, h1, h2, h3, le_of_not_lt h1]
      · left
        simp [nonCoordinateStatus, h1, h2, hk, le_of_not_lt h1]

/-- Witness for `comparison_no_error_status` at the Temperature key with
fully numeric data. -/
theorem comparison_no_error_status_witness :
    (("Temperature" : String) = "Temperature" →
      (∃ q : ℚ, (some (PyVal.num 6350) : Option PyVal) = some (.num q)) ∧
      (∃ q : ℚ, (some (PyVal.num 6400) : Option PyVal) = some (.num q))) ∧
    ((nonCoordinateStatus "Temperature"
        ⟨some (.num 6550), some (.num 6250), some (.num 6350)⟩
        ⟨some (.num 6500), some (.num 6200), some (.num 6400)⟩).1 = .pass
      ∨ (nonCoordinateStatus "Temperature"
        ⟨some (.num 6550), some (.num 6250), some (.num 6350)⟩
        ⟨some (.num 6500), some (.num 6200), some (.num 6400)⟩).1 = .fail) :=
  ⟨fun _ => ⟨⟨6350, rfl⟩, 6400, rfl⟩,
   comparison_no_error_status "Temperature" 6550 6250 6500 6200
     (some (.num 6350)) (some (.num 6400)) (fun _ => ⟨⟨6350, rfl⟩, 6400, rfl⟩)⟩

/-- C2: in the final-revision Comparison Engine (modelled from the spec),
when the metric is Contrast and `is_tv_flag` is true, with all consulted
values numeric: `expected.typ` is reduced by 6.5% before the FAIL checks and
`tolerance_applied percent=6.5, original_typ, adjusted_typ` is recorded on
the entry; the verdict is FAIL exactly when `avg` is below the adjusted typ
or `min` is below `expected.min`; in particular with `typ = 1000`, passing
min values, `avg = 935` gives PASS and `avg = 934.9` gives FAIL. -/
theorem contrast_tv_tolerance (avg amin typ0 emin : ℚ) (amax emax : Option PyVal) :
    ((finalNonCoordinateStatus true "Contrast"
        ⟨some (.num avg), some (.num amin), amax⟩
        ⟨some (.num typ0), some (.num emin), emax⟩).2
      = some ⟨13 / 2, typ0, typ0 - typ0 * (65 / 1000)⟩)
    ∧ ((finalNonCoordinateStatus true "Contrast"
        ⟨some (.num avg), some (.num amin), amax⟩
        ⟨some (.num typ0), some (.num emin), emax⟩).1 = .fail
      ↔ (avg < typ0 - typ0 * (65 / 1000) ∨ amin < emin))
    ∧ (finalNonCoordinateStatus true "Contrast"
        ⟨some (.num 935), some (.num 850), none⟩
        ⟨some (.num 1000), some (.num 800), none⟩).1 = .pass
    ∧ (finalNonCoordinateStatus true "Contrast"
        ⟨some (.num (9349 / 10)), some (.num 850), none⟩
        ⟨some (.num 1000), some (.num 800), none⟩).1 = .fail := by
  refine ⟨?_, ?_, ?_, ?_⟩
  · simp only [finalNonCoordinateStatus]
    norm_num
    split_ifs <;> rfl
  · simp only [finalNonCoordinateStatus]
    norm_num
    split_ifs with h1 h2 h3 <;> simp_all
  · simp only [finalNonCoordinateStatus]
    norm_num
  · simp only [finalNonCoordinateStatus]
    norm_num
    decide

/-- C3 (code evaluation at the failing input): the snapshot's
`brightness_uniformity` applied to a record with `min = 145.2` and
`max = 166.0` (and no `uniformity_center_lv`) returns `0.0`, not
`(min / max) * 100 ≈ 87.47` — the function divides by
`uniformity_center_lv`, never by `max`, contradicting the claim (and the
repository's own tests, which expect the `min/max` formula). -/
theorem brightness_uniformity_ignores_max :
    brightness_uniformity ⟨some (726 / 5), none, some 166, none⟩ = 0 := by decide

/-- C4 (code evaluation at the failing input): the snapshot's `cg_by_area`
given the repository test's device triangle and the selector "DCI-P3"
returns the default `(None, None)` pair — there is no DCI-P3 entry in its
selector dictionary (and its divisors are the hardcoded constants 0.112 and
0.158, not reference-triangle areas), contradicting the claim (and the
repository's own test, which expects `≈ 75.09` in the first slot). -/
theorem cg_by_area_dcip3_unhandled :
    cg_by_area [159 / 250, 329 / 1000, 311 / 1000, 123 / 200, 39 / 250, 49 / 1000] "DCI-P3"
      = some (none, none) := by
  unfold cg_by_area area ratAbs
  norm_num
  decide

/-- C5: in the final-revision Aggregation Engine (modelled from the spec),
every emitted `avg`/`min`/`max` value is rounded to the per-metric
decimal-places constant keyed by the key path's last segment — 0 decimals
for Brightness, Contrast, Temperature; 1 for BrightnessUniformity, the four
gamut metrics and DeltaE; 3 for coordinate components; 2 for unlisted
metrics; rounding to 0 decimals yields an integer (denominator 1), and the
absent marker passes through unrounded (scalar or array element). -/
theorem aggregation_rounding_rules :
    (metricDecimals "Brightness" = 0 ∧ metricDecimals "Contrast" = 0
      ∧ metricDecimals "Temperature" = 0)
    ∧ (metricDecimals "BrightnessUniformity" = 1 ∧ metricDecimals "CgByAreaRGB" = 1
      ∧ metricDecimals "CgByAreaNTSC" = 1 ∧ metricDecimals "CgRGB" = 1
      ∧ metricDecimals "CgNTSC" = 1 ∧ metricDecimals "DeltaE" = 1)
    ∧ (metricDecimals "Red_x" = 3 ∧ metricDecimals "Green_y" = 3
      ∧ metricDecimals "Blue_x" = 3 ∧ metricDecimals "White_y" = 3
      ∧ metricDecimals "Center_x" = 3)
    ∧ metricDecimals "SomeUnlistedMetric" = 2
    ∧ lastSegment "Coordinates.Red_x" = "Red_x"
    ∧ (∀ q : ℚ, (pyRound q 0).den = 1)
    ∧ (∀ path : String, ∀ q : ℚ, ∀ l : List ℚ,
        roundStatPackage path ⟨.scalar (some q), .scalar none, .array (none :: l.map some)⟩
          = ⟨.scalar (some (pyRound q (metricDecimals (lastSegment path)))),
             .scalar none,
             .array (none :: l.map (fun x => some (pyRound x (metricDecimals (lastSegment path)))))⟩) := by
  refine ⟨by decide, by decide, by decide, by decide, by decide, ?_, ?_⟩
  · intro q
    unfold pyRound
    norm_num
  · intro path q l
    simp [roundStatPackage, roundEntry, List.map_map, Function.comp, Option.map]

/-- C8: `get_inspection_date_range` renders a single distinct calendar date
as day-with-ordinal-suffix, full month name and year
(`20251101120000` gives "1st November 2025"); a multi-day range within one
month and year as two suffixed days, month and year
("1st - 3rd November 2025"); empty or unparsable input gives "N/A"; and
`get_day_suffix` agrees with the spec's ordinal-suffix rule ("th" for 11–13,
else by the day's last digit) on every day of a month. -/
theorem inspection_date_range_format :
    get_inspection_date_range [] = "N/A"
    ∧ get_inspection_date_range [some "garbage"] = "N/A"
    ∧ get_inspection_date_range [some "20251101120000"] = "1st November 2025"
    ∧ get_inspection_date_range [some "20251101120000", some "20251103130000"]
        = "1st - 3rd November 2025"
    ∧ (∀ day : ℕ, day ≤ 31 → get_day_suffix day = specOrdinalSuffix day) := by
  refine ⟨by decide, by decide, by decide, by decide, ?_⟩
  intro day hday
  revert hday
  revert day
  decide

/-- Witness for `inspection_date_range_format` at day 3. -/
theorem inspection_date_range_format_witness :
    3 ≤ 31 ∧ get_day_suffix 3 = specOrdinalSuffix 3 :=
  ⟨by decide, inspection_date_range_format.2.2.2.2 3 (by decide)⟩

/-- C9: in `upload_to_nextcloud`, the manifest is the first upload attempted,
sequentially, at `/SCT/Updater/versions/product_id/manifest-filename`, and
whenever that upload fails the function returns failure with the manifest as
the only attempted upload — no application file is attempted, in any
mode. -/
theorem manifest_upload_aborts (uploadOk : String → Bool) (manifest_name : String)
    (files_to_upload : List String) (product_id version : String) (mode : UploadMode)
    (h : uploadOk ("/SCT/Updater/versions/" ++ product_id ++ "/" ++ manifest_name) = false) :
    upload_to_nextcloud uploadOk manifest_name files_to_upload product_id version mode
      = (false, ["/SCT/Updater/versions/" ++ product_id ++ "/" ++ manifest_name]) := by
  simp [upload_to_nextcloud, h]

/-- Witness for `manifest_upload_aborts`: an always-failing remote, zip mode,
one pending application file that is never attempted. -/
theorem manifest_upload_aborts_witness :
    (fun _ : String => false) ("/SCT/Updater/versions/" ++ "prodX" ++ "/" ++ "manifest.json") = false
    ∧ upload_to_nextcloud (fun _ => false) "manifest.json" ["app.zip"] "prodX" "1.0" .zip
      = (false, ["/SCT/Updater/versions/" ++ "prodX" ++ "/" ++ "manifest.json"]) :=
  ⟨rfl, manifest_upload_aborts (fun _ => false) "manifest.json" ["app.zip"] "prodX" "1.0" .zip rfl⟩

end DCnRG
